import Mathlib

/-!
Shallow embedding of the KDP ads automator's profitability engine
(`src/analysis/roi-calculator.ts`) and change-proposal workflow
(`src/scripts/import-csv.ts` tool handlers and `src/db/database.ts`
pending-change operations), together with theorems settling the spec's
claims about them.

Currency and metric values (JavaScript numbers in the source) are
modelled as exact rationals; every division in the source is guarded by
a positivity test on the denominator, so the rational embedding agrees
with the floating-point code on the guard structure.
-/

namespace KdpAds

/-! ### Data model: metric records and ROI reports -/

/-- One day of campaign metrics, from `CampaignMetrics` in
`src/types/index.ts` (numeric fields as rationals; `kenpRoyalties` and
`kenpPagesRead` are optional in the source). -/
structure CampaignMetrics where
  campaignId : String
  date : String
  impressions : ℚ
  clicks : ℚ
  spend : ℚ
  sales : ℚ
  orders : ℚ
  unitsSold : ℚ
  kenpRoyalties : Option ℚ
  kenpPagesRead : Option ℚ
deriving DecidableEq, Repr

/-- The totals record returned by `aggregateMetrics` in
`src/analysis/roi-calculator.ts`. -/
structure AggTotals where
  impressions : ℚ
  clicks : ℚ
  spend : ℚ
  sales : ℚ
  orders : ℚ
  unitsSold : ℚ
  kenpRoyalties : ℚ
deriving DecidableEq, Repr

/-- The reducer passed to `metrics.reduce` by `aggregateMetrics`:
componentwise addition, with an absent `kenpRoyalties` field counted as
0 (`m.kenpRoyalties ?? 0`). -/
def aggStep (acc : AggTotals) (m : CampaignMetrics) : AggTotals :=
  { impressions := acc.impressions + m.impressions
    clicks := acc.clicks + m.clicks
    spend := acc.spend + m.spend
    sales := acc.sales + m.sales
    orders := acc.orders + m.orders
    unitsSold := acc.unitsSold + m.unitsSold
    kenpRoyalties := acc.kenpRoyalties + (m.kenpRoyalties.getD 0) }

/-- `aggregateMetrics` from `src/analysis/roi-calculator.ts`: a
left fold (JavaScript `reduce`) of `aggStep` starting from all-zero
totals. -/
def aggregateMetrics (metrics : List CampaignMetrics) : AggTotals :=
  metrics.foldl aggStep
    { impressions := 0
      clicks := 0
      spend := 0
      sales := 0
      orders := 0
      unitsSold := 0
      kenpRoyalties := 0 }

/-- `AnalysisConfig` from `src/analysis/roi-calculator.ts`. -/
structure AnalysisConfig where
  royaltyPerSale : ℚ
  kenpRatePerPage : Option ℚ := none
deriving DecidableEq, Repr

/-- The `period` field of an ROI report (`startDate`/`endDate`). -/
structure DateRange where
  startDate : String
  endDate : String
deriving DecidableEq, Repr

/-- `ROIMetrics` from `src/types/index.ts`: the report produced by
`calculateROI`. -/
structure ROIMetrics where
  campaignId : String
  campaignName : String
  period : DateRange
  totalSpend : ℚ
  totalSales : ℚ
  totalOrders : ℚ
  totalUnitsSold : ℚ
  totalImpressions : ℚ
  totalClicks : ℚ
  acos : ℚ
  roas : ℚ
  ctr : ℚ
  cpc : ℚ
  conversionRate : ℚ
  estimatedRoyalties : ℚ
  estimatedProfit : ℚ
  profitMargin : ℚ
  breakEvenAcos : ℚ
deriving DecidableEq, Repr

/-- `calculateROI` from `src/analysis/roi-calculator.ts`, line for line:
each ratio is guarded by a strict positivity test on its denominator;
the break-even ACOS falls back to the constant 30 when sales are not
positive but `royaltyPerSale` is; the period is taken from the first and
last elements of the metrics list (`metrics[0].date` and
`metrics[metrics.length - 1].date`), or empty strings when the list is
empty. -/
def calculateROI (campaignId campaignName : String)
    (metrics : List CampaignMetrics) (config : AnalysisConfig) : ROIMetrics :=
  let agg := aggregateMetrics metrics
  let acos := if agg.sales > 0 then agg.spend / agg.sales * 100 else 0
  let roas := if agg.spend > 0 then agg.sales / agg.spend else 0
  let ctr := if agg.impressions > 0 then agg.clicks / agg.impressions * 100 else 0
  let cpc := if agg.clicks > 0 then agg.spend / agg.clicks else 0
  let conversionRate := if agg.clicks > 0 then agg.orders / agg.clicks * 100 else 0
  let salesRoyalties := agg.unitsSold * config.royaltyPerSale
  let totalRoyalties := salesRoyalties + agg.kenpRoyalties
  let profit := totalRoyalties - agg.spend
  let profitMargin := if totalRoyalties > 0 then profit / totalRoyalties * 100 else 0
  let breakEvenAcos :=
    if agg.sales > 0 then totalRoyalties / agg.sales * 100
    else if config.royaltyPerSale > 0 then 30 else 0
  let dateRange : DateRange :=
    match metrics.head?, metrics.getLast? with
    | some mFirst, some mLast => { startDate := mFirst.date, endDate := mLast.date }
    | _, _ => { startDate := "", endDate := "" }
  { campaignId := campaignId
    campaignName := campaignName
    period := dateRange
    totalSpend := agg.spend
    totalSales := agg.sales
    totalOrders := agg.orders
    totalUnitsSold := agg.unitsSold
    totalImpressions := agg.impressions
    totalClicks := agg.clicks
    acos := acos
    roas := roas
    ctr := ctr
    cpc := cpc
    conversionRate := conversionRate
    estimatedRoyalties := totalRoyalties
    estimatedProfit := profit
    profitMargin := profitMargin
    breakEvenAcos := breakEvenAcos }

/-- `percentageChange` from `src/analysis/roi-calculator.ts`. -/
def percentageChange (current previous : ℚ) : ℚ :=
  if previous = 0 then (if current > 0 then 100 else 0)
  else (current - previous) / previous * 100

/-- The `changes` record of a `PeriodComparison`. -/
structure PeriodChanges where
  spendChange : ℚ
  salesChange : ℚ
  acosChange : ℚ
  profitChange : ℚ
  impressionsChange : ℚ
  clicksChange : ℚ
deriving DecidableEq, Repr

/-- `PeriodComparison` from `src/types/index.ts`. -/
structure PeriodComparison where
  currentPeriod : ROIMetrics
  previousPeriod : ROIMetrics
  changes : PeriodChanges
deriving DecidableEq, Repr

/-- `comparePeriods` from `src/analysis/roi-calculator.ts`. -/
def comparePeriods (current previous : ROIMetrics) : PeriodComparison :=
  { currentPeriod := current
    previousPeriod := previous
    changes :=
      { spendChange := percentageChange current.totalSpend previous.totalSpend
        salesChange := percentageChange current.totalSales previous.totalSales
        acosChange := percentageChange current.acos previous.acos
        profitChange := percentageChange current.estimatedProfit previous.estimatedProfit
        impressionsChange := percentageChange current.totalImpressions previous.totalImpressions
        clicksChange := percentageChange current.totalClicks previous.totalClicks } }

/-! ### Data model: change-proposal workflow -/

/-- Status of a pending change (`pending_changes.status` in
`src/db/schema.ts`, default `'pending'`). -/
inductive Status where
  | pending
  | approved
  | rejected
  | executed
  | failed
deriving DecidableEq, Repr

/-- The four change kinds of `PendingChange.changeType` in
`src/db/database.ts`. -/
inductive ChangeType where
  | bid_adjustment
  | state_change
  | budget_change
  | add_negative_keyword
deriving DecidableEq, Repr

/-- `PendingChange.targetType` in `src/db/database.ts`. -/
inductive TargetType where
  | campaign
  | ad_group
  | keyword
deriving DecidableEq, Repr

/-- A JSON payload as stored in `current_value` / `proposed_value`.  The
source stores small untyped JSON objects and reads fields back with type
assertions; a missing field reads as JavaScript `undefined`, modelled
here as `none`. -/
structure ChangeValue where
  bid : Option ℚ := none
  state : Option String := none
  dailyBudget : Option ℚ := none
  keywordText : Option String := none
  matchType : Option String := none
deriving DecidableEq, Repr

/-- A row of `pending_changes` (`PendingChange` in `src/db/database.ts`).
Timestamps are modelled as natural-number ticks of the database clock. -/
structure PendingChange where
  id : Nat
  changeType : ChangeType
  targetType : TargetType
  targetId : String
  targetName : Option String
  currentValue : ChangeValue
  proposedValue : ChangeValue
  reason : Option String
  status : Status
  createdAt : Nat
  reviewedAt : Option Nat
  executedAt : Option Nat
  errorMessage : Option String
deriving DecidableEq, Repr

/-- A row of `change_history` (written by `recordChangeHistory` in
`src/db/database.ts`).  `apiResponse` stores the `{ error: msg }` object
passed on failure, modelled by the message it carries. -/
structure ChangeHistoryEntry where
  pendingChangeId : Option Nat
  targetType : TargetType
  targetId : String
  changeType : ChangeType
  oldValue : Option ChangeValue
  newValue : ChangeValue
  executedAt : Nat
  success : Bool
  apiResponse : Option String
deriving DecidableEq, Repr

/-- A row of `keywords` (`Keyword` in `src/types/index.ts`). -/
structure Keyword where
  id : String
  adGroupId : String
  campaignId : String
  keywordText : String
  matchType : String
  state : String
  bid : ℚ
deriving DecidableEq, Repr

/-- A row of `campaigns`, restricted to the fields the proposal handlers
read (`Campaign` in `src/types/index.ts`). -/
structure Campaign where
  id : String
  name : String
  state : String
  dailyBudget : ℚ
deriving DecidableEq, Repr

/-- The database state visible to the proposal workflow: the tables it
reads and writes, the `SERIAL` id counter of `pending_changes`, and the
`NOW()` clock. -/
structure DB where
  keywords : List Keyword
  campaigns : List Campaign
  pendingChanges : List PendingChange
  changeHistory : List ChangeHistoryEntry
  nextChangeId : Nat
  now : Nat
deriving DecidableEq, Repr

/-- `getKeywordById` from `src/db/database.ts`
(`SELECT * FROM keywords WHERE id = $1`, first row or null). -/
def getKeywordById (db : DB) (id : String) : Option Keyword :=
  db.keywords.find? (fun k => k.id == id)

/-- `getCampaignById` from `src/db/database.ts`. -/
def getCampaignById (db : DB) (id : String) : Option Campaign :=
  db.campaigns.find? (fun c => c.id == id)

/-- `getPendingChangeById` from `src/db/database.ts`. -/
def getPendingChangeById (db : DB) (id : Nat) : Option PendingChange :=
  db.pendingChanges.find? (fun c => c.id == id)

/-- `createPendingChange` from `src/db/database.ts`: inserts a row; the
schema defaults `status` to `'pending'`, `created_at` to `NOW()`, and
leaves `reviewed_at`, `executed_at`, `error_message` null.  Returns the
updated database and the assigned id. -/
def createPendingChange (db : DB) (changeType : ChangeType)
    (targetType : TargetType) (targetId : String) (targetName : Option String)
    (currentValue proposedValue : ChangeValue) (reason : Option String) :
    DB × Nat :=
  let row : PendingChange :=
    { id := db.nextChangeId
      changeType := changeType
      targetType := targetType
      targetId := targetId
      targetName := targetName
      currentValue := currentValue
      proposedValue := proposedValue
      reason := reason
      status := Status.pending
      createdAt := db.now
      reviewedAt := none
      executedAt := none
      errorMessage := none }
  ({ db with
      pendingChanges := db.pendingChanges ++ [row]
      nextChangeId := db.nextChangeId + 1 },
   db.nextChangeId)

/-- `updatePendingChangeStatus` from `src/db/database.ts`:
`UPDATE pending_changes SET status = $2, reviewed_at = NOW()[,
executed_at = NOW()][, error_message = $n] WHERE id = $1`.  The update
is keyed on the id alone — it carries no condition on the stored status.
`executed_at` is set only when the new status is `executed` or `failed`;
`error_message` is set only when the argument is present and non-empty
(JavaScript truthiness of `if (errorMessage)`).  `applyStatusUpdate` is
the per-row effect of that `UPDATE`'s `SET` list. -/
def applyStatusUpdate (nowT : Nat) (status : Status)
    (errorMessage : Option String) (c : PendingChange) : PendingChange :=
  { c with
    status := status
    reviewedAt := some nowT
    executedAt :=
      if status = Status.executed ∨ status = Status.failed then some nowT
      else c.executedAt
    errorMessage :=
      match errorMessage with
      | some msg => if msg ≠ "" then some msg else c.errorMessage
      | none => c.errorMessage }

def updatePendingChangeStatus (db : DB) (id : Nat) (status : Status)
    (errorMessage : Option String) : DB :=
  { db with
    pendingChanges := db.pendingChanges.map (fun c =>
      if c.id == id then applyStatusUpdate db.now status errorMessage c else c) }

/-- `recordChangeHistory` from `src/db/database.ts`: appends one audit
row; `executed_at` defaults to `NOW()`. -/
def recordChangeHistory (db : DB) (pendingChangeId : Option Nat)
    (targetType : TargetType) (targetId : String) (changeType : ChangeType)
    (oldValue : Option ChangeValue) (newValue : ChangeValue) (success : Bool)
    (apiResponse : Option String) : DB :=
  { db with
    changeHistory := db.changeHistory ++
      [{ pendingChangeId := pendingChangeId
         targetType := targetType
         targetId := targetId
         changeType := changeType
         oldValue := oldValue
         newValue := newValue
         executedAt := db.now
         success := success
         apiResponse := apiResponse }] }

/-! ### The execution backend (Amazon Ads client) -/

/-- Outcome of a backend mutation call: resolves, or throws an `Error`
whose message is `msg`. -/
inductive ExecResult where
  | ok
  | err (msg : String)
deriving DecidableEq, Repr

/-- One invocation of the execution backend, for counting execution
attempts. -/
inductive BackendCall where
  | bid (targetId : String) (newBid : Option ℚ)
  | kwState (targetId : String) (newState : Option String)
  | budget (targetId : String) (newBudget : Option ℚ)
  | negKeyword (targetId : String) (keywordText matchType : Option String)
deriving DecidableEq, Repr

/-- The execution backend (`AmazonAdsClient` in
`src/scripts/import-csv.ts`): four mutation calls, each of which either
succeeds or throws. -/
structure AdsClient where
  updateKeywordBid : String → Option ℚ → ExecResult
  updateKeywordState : String → Option String → ExecResult
  updateCampaignBudget : String → Option ℚ → ExecResult
  addNegativeKeyword : String → Option String → Option String → ExecResult

/-- The `switch (change.changeType)` dispatch inside the `try` block of
the `approve_change` handler: maps the proposal's kind and
proposed-value payload to exactly one backend call (the source's type
assertions read single fields of the JSON payload; an absent field is
passed through as `undefined`/`none`).  Returns the call's result and
the call itself. -/
def execChange (client : AdsClient) (change : PendingChange) :
    ExecResult × BackendCall :=
  match change.changeType with
  | ChangeType.bid_adjustment =>
      (client.updateKeywordBid change.targetId change.proposedValue.bid,
       BackendCall.bid change.targetId change.proposedValue.bid)
  | ChangeType.state_change =>
      (client.updateKeywordState change.targetId change.proposedValue.state,
       BackendCall.kwState change.targetId change.proposedValue.state)
  | ChangeType.budget_change =>
      (client.updateCampaignBudget change.targetId change.proposedValue.dailyBudget,
       BackendCall.budget change.targetId change.proposedValue.dailyBudget)
  | ChangeType.add_negative_keyword =>
      (client.addNegativeKeyword change.targetId change.proposedValue.keywordText
        change.proposedValue.matchType,
       BackendCall.negKeyword change.targetId change.proposedValue.keywordText
        change.proposedValue.matchType)

/-! ### Tool handlers (`src/scripts/import-csv.ts`) -/

/-- Result of the `approve_change` tool handler, by return branch. -/
inductive ApproveOutcome where
  | notFound
  | conflict (current : Status)
  | approvedNoBackend
  | executed
  | failedExec (msg : String)
deriving DecidableEq, Repr

/-- Result of the `reject_change` tool handler, by return branch. -/
inductive RejectOutcome where
  | notFound
  | conflict (current : Status)
  | rejected
deriving DecidableEq, Repr

/-- Result of a propose handler, by return branch. -/
inductive ProposeOutcome where
  | notFound
  | created (changeId : Nat)
deriving DecidableEq, Repr

/-- Whether the handler's MCP response carries `isError: true`. -/
def approveIsError : ApproveOutcome → Bool
  | ApproveOutcome.notFound => true
  | ApproveOutcome.conflict _ => true
  | ApproveOutcome.approvedNoBackend => false
  | ApproveOutcome.executed => false
  | ApproveOutcome.failedExec _ => true

/-- The `propose_bid_change` tool handler: looks up the keyword and, if
found, records a pending change snapshotting the current and proposed
bid.  It neither writes the keywords table nor touches the backend. -/
def propose_bid_change (db : DB) (keywordId : String) (newBid : ℚ)
    (reason : String) : DB × ProposeOutcome :=
  match getKeywordById db keywordId with
  | none => (db, ProposeOutcome.notFound)
  | some keyword =>
      let r := createPendingChange db ChangeType.bid_adjustment
        TargetType.keyword keywordId (some keyword.keywordText)
        { bid := some keyword.bid } { bid := some newBid } (some reason)
      (r.1, ProposeOutcome.created r.2)

/-- The `propose_keyword_state_change` tool handler. -/
def propose_keyword_state_change (db : DB) (keywordId : String)
    (newState : String) (reason : String) : DB × ProposeOutcome :=
  match getKeywordById db keywordId with
  | none => (db, ProposeOutcome.notFound)
  | some keyword =>
      let r := createPendingChange db ChangeType.state_change
        TargetType.keyword keywordId (some keyword.keywordText)
        { state := some keyword.state } { state := some newState } (some reason)
      (r.1, ProposeOutcome.created r.2)

/-- The `propose_budget_change` tool handler. -/
def propose_budget_change (db : DB) (campaignId : String) (newBudget : ℚ)
    (reason : String) : DB × ProposeOutcome :=
  match getCampaignById db campaignId with
  | none => (db, ProposeOutcome.notFound)
  | some campaign =>
      let r := createPendingChange db ChangeType.budget_change
        TargetType.campaign campaignId (some campaign.name)
        { dailyBudget := some campaign.dailyBudget }
        { dailyBudget := some newBudget } (some reason)
      (r.1, ProposeOutcome.created r.2)

/-- The `propose_negative_keyword` tool handler. -/
def propose_negative_keyword (db : DB) (campaignId : String)
    (keywordText : String) (matchType : String) (reason : String) :
    DB × ProposeOutcome :=
  match getCampaignById db campaignId with
  | none => (db, ProposeOutcome.notFound)
  | some campaign =>
      let r := createPendingChange db ChangeType.add_negative_keyword
        TargetType.campaign campaignId (some campaign.name)
        {} { keywordText := some keywordText, matchType := some matchType }
        (some reason)
      (r.1, ProposeOutcome.created r.2)

/-- The part of the `approve_change` handler after its single read of
the proposal (the handler reads the row once into `change` and uses that
snapshot for every later decision; only the writes are keyed on the id).
With no backend configured, records `approved` and returns a non-error
message.  With a backend, dispatches exactly one mutation; on success
writes `executed` and a successful history row, on a thrown error writes
`failed` with the error message and a failed history row carrying the
`{ error: msg }` payload.  Also returns the list of backend calls
made. -/
def approveWithSnapshot (adsClient : Option AdsClient) (db : DB)
    (changeId : Nat) (change : PendingChange) :
    DB × ApproveOutcome × List BackendCall :=
  if change.status ≠ Status.pending then
    (db, ApproveOutcome.conflict change.status, [])
  else
    match adsClient with
    | none =>
        (updatePendingChangeStatus db changeId Status.approved none,
         ApproveOutcome.approvedNoBackend, [])
    | some client =>
        let r := execChange client change
        match r.1 with
        | ExecResult.ok =>
            let db1 := updatePendingChangeStatus db changeId Status.executed none
            let db2 := recordChangeHistory db1 (some changeId) change.targetType
              change.targetId change.changeType (some change.currentValue)
              change.proposedValue true none
            (db2, ApproveOutcome.executed, [r.2])
        | ExecResult.err msg =>
            let db1 := updatePendingChangeStatus db changeId Status.failed (some msg)
            let db2 := recordChangeHistory db1 (some changeId) change.targetType
              change.targetId change.changeType (some change.currentValue)
              change.proposedValue false (some msg)
            (db2, ApproveOutcome.failedExec msg, [r.2])

/-- The `approve_change` tool handler: one read of the proposal followed
by `approveWithSnapshot` on the value read. -/
def approve_change (adsClient : Option AdsClient) (db : DB) (changeId : Nat) :
    DB × ApproveOutcome × List BackendCall :=
  match getPendingChangeById db changeId with
  | none => (db, ApproveOutcome.notFound, [])
  | some change => approveWithSnapshot adsClient db changeId change

/-- The `reject_change` tool handler: not-found and non-pending guards,
then a status write to `rejected`.  It never touches the backend or any
other table. -/
def reject_change (db : DB) (changeId : Nat) : DB × RejectOutcome :=
  match getPendingChangeById db changeId with
  | none => (db, RejectOutcome.notFound)
  | some change =>
      if change.status ≠ Status.pending then
        (db, RejectOutcome.conflict change.status)
      else
        (updatePendingChangeStatus db changeId Status.rejected none,
         RejectOutcome.rejected)

/-- The mutating proposal-workflow operations a caller can invoke. -/
inductive Op where
  | proposeBid (keywordId : String) (newBid : ℚ) (reason : String)
  | proposeKwState (keywordId : String) (newState : String) (reason : String)
  | proposeBudget (campaignId : String) (newBudget : ℚ) (reason : String)
  | proposeNeg (campaignId : String) (keywordText matchType reason : String)
  | approve (changeId : Nat)
  | reject (changeId : Nat)
deriving DecidableEq, Repr

/-- One workflow operation, as a state transformer on the database. -/
def runOp (adsClient : Option AdsClient) (db : DB) : Op → DB
  | Op.proposeBid k b r => (propose_bid_change db k b r).1
  | Op.proposeKwState k s r => (propose_keyword_state_change db k s r).1
  | Op.proposeBudget c b r => (propose_budget_change db c b r).1
  | Op.proposeNeg c t m r => (propose_negative_keyword db c t m r).1
  | Op.approve id => (approve_change adsClient db id).1
  | Op.reject id => (reject_change db id).1

/-- A sequence of workflow operations run left to right. -/
def runOps (adsClient : Option AdsClient) (db : DB) (ops : List Op) : DB :=
  ops.foldl (runOp adsClient) db

/-! ### Transition disciplines -/

/-- The per-operation status transition discipline the code actually
enforces: a stored status is either unchanged by an operation, or moves
from `pending` to a non-`pending` status.  (Every non-`pending` status
is terminal: the handlers' guards refuse both approve and reject, and
nothing else writes the status.) -/
def legalStep (a b : Status) : Prop :=
  a = b ∨ (a = Status.pending ∧ b ≠ Status.pending)

/-- Transcription of the claim's allowed edge set (spec wording):
pending→approved, pending→rejected, approved→executed,
approved→failed.  Used only to compare the claim against the code's
transition system. -/
def specAllowedTransition (a b : Status) : Prop :=
  (a = Status.pending ∧ b = Status.approved) ∨
  (a = Status.pending ∧ b = Status.rejected) ∨
  (a = Status.approved ∧ b = Status.executed) ∨
  (a = Status.approved ∧ b = Status.failed)

/-! ### Concrete fixtures used by witnesses and counterexamples -/

/-- A demo metric record (integral values). -/
def demoMetric : CampaignMetrics :=
  { campaignId := "c1"
    date := "2025-12-10"
    impressions := 2100
    clicks := 20
    spend := 16
    sales := 32
    orders := 2
    unitsSold := 2
    kenpRoyalties := some 1
    kenpPagesRead := some 300 }

/-- A second demo metric record with an earlier date. -/
def demoMetricEarlier : CampaignMetrics :=
  { campaignId := "c1"
    date := "2025-12-09"
    impressions := 2000
    clicks := 25
    spend := 19
    sales := 64
    orders := 2
    unitsSold := 2
    kenpRoyalties := none
    kenpPagesRead := none }

/-- A demo profitability configuration. -/
def demoConfig : AnalysisConfig := { royaltyPerSale := 3, kenpRatePerPage := none }

/-! ### Concrete workflow fixtures -/

/-- A demo keyword row. -/
def demoKeyword : Keyword :=
  { id := "kw1", adGroupId := "ag1", campaignId := "cp1",
    keywordText := "epic fantasy books", matchType := "exact",
    state := "enabled", bid := 1 }

/-- A demo campaign row. -/
def demoCampaign : Campaign :=
  { id := "cp1", name := "My Book - Manual", state := "enabled", dailyBudget := 5 }

/-- A demo bid-adjustment proposal in the given status. -/
def demoChange (st : Status) : PendingChange :=
  { id := 1, changeType := ChangeType.bid_adjustment,
    targetType := TargetType.keyword, targetId := "kw1",
    targetName := some "epic fantasy books",
    currentValue := { bid := some 1 }, proposedValue := { bid := some 2 },
    reason := some "lower acos", status := st, createdAt := 3,
    reviewedAt := none, executedAt := none, errorMessage := none }

/-- A demo database holding one keyword, one campaign and one proposal
in the given status. -/
def demoDB (st : Status) : DB :=
  { keywords := [demoKeyword], campaigns := [demoCampaign],
    pendingChanges := [demoChange st], changeHistory := [],
    nextChangeId := 2, now := 7 }

/-- A backend whose every mutation call succeeds. -/
def okClient : AdsClient :=
  { updateKeywordBid := fun _ _ => ExecResult.ok
    updateKeywordState := fun _ _ => ExecResult.ok
    updateCampaignBudget := fun _ _ => ExecResult.ok
    addNegativeKeyword := fun _ _ _ => ExecResult.ok }

/-- A backend whose every mutation call throws an `Error` with the empty
message. -/
def errEmptyClient : AdsClient :=
  { updateKeywordBid := fun _ _ => ExecResult.err ""
    updateKeywordState := fun _ _ => ExecResult.err ""
    updateCampaignBudget := fun _ _ => ExecResult.err ""
    addNegativeKeyword := fun _ _ _ => ExecResult.err "" }

/-! ### Helper lemmas: aggregation as componentwise sums -/

lemma foldl_aggStep (l : List CampaignMetrics) (acc : AggTotals) :
    l.foldl aggStep acc =
      { impressions := acc.impressions + (l.map CampaignMetrics.impressions).sum
        clicks := acc.clicks + (l.map CampaignMetrics.clicks).sum
        spend := acc.spend + (l.map CampaignMetrics.spend).sum
        sales := acc.sales + (l.map CampaignMetrics.sales).sum
        orders := acc.orders + (l.map CampaignMetrics.orders).sum
        unitsSold := acc.unitsSold + (l.map CampaignMetrics.unitsSold).sum
        kenpRoyalties :=
          acc.kenpRoyalties + (l.map (fun m => m.kenpRoyalties.getD 0)).sum } := by
  induction l generalizing acc with
  | nil => simp
  | cons m t ih => simp [List.foldl_cons, ih, aggStep, add_assoc]

/-- The totals are the componentwise sums over all records, with an
absent page-read royalty counted as zero. -/
lemma aggregateMetrics_eq_sums (l : List CampaignMetrics) :
    aggregateMetrics l =
      { impressions := (l.map CampaignMetrics.impressions).sum
        clicks := (l.map CampaignMetrics.clicks).sum
        spend := (l.map CampaignMetrics.spend).sum
        sales := (l.map CampaignMetrics.sales).sum
        orders := (l.map CampaignMetrics.orders).sum
        unitsSold := (l.map CampaignMetrics.unitsSold).sum
        kenpRoyalties := (l.map (fun m => m.kenpRoyalties.getD 0)).sum } := by
  simp [aggregateMetrics, foldl_aggStep]

lemma aggregateMetrics_perm {l l' : List CampaignMetrics} (h : l.Perm l') :
    aggregateMetrics l = aggregateMetrics l' := by
  rw [aggregateMetrics_eq_sums, aggregateMetrics_eq_sums,
    (h.map CampaignMetrics.impressions).sum_eq,
    (h.map CampaignMetrics.clicks).sum_eq,
    (h.map CampaignMetrics.spend).sum_eq,
    (h.map CampaignMetrics.sales).sum_eq,
    (h.map CampaignMetrics.orders).sum_eq,
    (h.map CampaignMetrics.unitsSold).sum_eq,
    (h.map (fun m => m.kenpRoyalties.getD 0)).sum_eq]

/-- Componentwise non-negativity of the totals, from per-record
non-negativity. -/
lemma aggregateMetrics_nonneg {metrics : List CampaignMetrics}
    (hm : ∀ m ∈ metrics, 0 ≤ m.impressions ∧ 0 ≤ m.clicks ∧ 0 ≤ m.spend ∧
      0 ≤ m.sales ∧ 0 ≤ m.orders ∧ 0 ≤ m.unitsSold ∧ 0 ≤ m.kenpRoyalties.getD 0) :
    0 ≤ (aggregateMetrics metrics).impressions ∧
    0 ≤ (aggregateMetrics metrics).clicks ∧
    0 ≤ (aggregateMetrics metrics).spend ∧
    0 ≤ (aggregateMetrics metrics).sales ∧
    0 ≤ (aggregateMetrics metrics).orders ∧
    0 ≤ (aggregateMetrics metrics).unitsSold ∧
    0 ≤ (aggregateMetrics metrics).kenpRoyalties := by
  rw [aggregateMetrics_eq_sums]
  refine ⟨?_, ?_, ?_, ?_, ?_, ?_, ?_⟩ <;>
    refine List.sum_nonneg ?_ <;>
    intro x hx <;>
    obtain ⟨m, hmem, rfl⟩ := List.mem_map.mp hx
  · exact (hm m hmem).1
  · exact (hm m hmem).2.1
  · exact (hm m hmem).2.2.1
  · exact (hm m hmem).2.2.2.1
  · exact (hm m hmem).2.2.2.2.1
  · exact (hm m hmem).2.2.2.2.2.1
  · exact (hm m hmem).2.2.2.2.2.2

/-! ### Helper lemmas: fields of `calculateROI` -/

lemma calculateROI_totalSpend (cid cname : String) (l : List CampaignMetrics)
    (cfg : AnalysisConfig) :
    (calculateROI cid cname l cfg).totalSpend = (aggregateMetrics l).spend := rfl

lemma calculateROI_totalSales (cid cname : String) (l : List CampaignMetrics)
    (cfg : AnalysisConfig) :
    (calculateROI cid cname l cfg).totalSales = (aggregateMetrics l).sales := rfl

lemma calculateROI_totalOrders (cid cname : String) (l : List CampaignMetrics)
    (cfg : AnalysisConfig) :
    (calculateROI cid cname l cfg).totalOrders = (aggregateMetrics l).orders := rfl

lemma calculateROI_totalUnitsSold (cid cname : String) (l : List CampaignMetrics)
    (cfg : AnalysisConfig) :
    (calculateROI cid cname l cfg).totalUnitsSold = (aggregateMetrics l).unitsSold := rfl

lemma calculateROI_totalImpressions (cid cname : String) (l : List CampaignMetrics)
    (cfg : AnalysisConfig) :
    (calculateROI cid cname l cfg).totalImpressions = (aggregateMetrics l).impressions := rfl

lemma calculateROI_totalClicks (cid cname : String) (l : List CampaignMetrics)
    (cfg : AnalysisConfig) :
    (calculateROI cid cname l cfg).totalClicks = (aggregateMetrics l).clicks := rfl

lemma calculateROI_acos (cid cname : String) (l : List CampaignMetrics)
    (cfg : AnalysisConfig) :
    (calculateROI cid cname l cfg).acos =
      (if (aggregateMetrics l).sales > 0 then
        (aggregateMetrics l).spend / (aggregateMetrics l).sales * 100 else 0) := rfl

lemma calculateROI_roas (cid cname : String) (l : List CampaignMetrics)
    (cfg : AnalysisConfig) :
    (calculateROI cid cname l cfg).roas =
      (if (aggregateMetrics l).spend > 0 then
        (aggregateMetrics l).sales / (aggregateMetrics l).spend else 0) := rfl

lemma calculateROI_ctr (cid cname : String) (l : List CampaignMetrics)
    (cfg : AnalysisConfig) :
    (calculateROI cid cname l cfg).ctr =
      (if (aggregateMetrics l).impressions > 0 then
        (aggregateMetrics l).clicks / (aggregateMetrics l).impressions * 100 else 0) := rfl

lemma calculateROI_cpc (cid cname : String) (l : List CampaignMetrics)
    (cfg : AnalysisConfig) :
    (calculateROI cid cname l cfg).cpc =
      (if (aggregateMetrics l).clicks > 0 then
        (aggregateMetrics l).spend / (aggregateMetrics l).clicks else 0) := rfl

lemma calculateROI_conversionRate (cid cname : String) (l : List CampaignMetrics)
    (cfg : AnalysisConfig) :
    (calculateROI cid cname l cfg).conversionRate =
      (if (aggregateMetrics l).clicks > 0 then
        (aggregateMetrics l).orders / (aggregateMetrics l).clicks * 100 else 0) := rfl

lemma calculateROI_estimatedRoyalties (cid cname : String) (l : List CampaignMetrics)
    (cfg : AnalysisConfig) :
    (calculateROI cid cname l cfg).estimatedRoyalties =
      (aggregateMetrics l).unitsSold * cfg.royaltyPerSale +
        (aggregateMetrics l).kenpRoyalties := rfl

lemma calculateROI_estimatedProfit (cid cname : String) (l : List CampaignMetrics)
    (cfg : AnalysisConfig) :
    (calculateROI cid cname l cfg).estimatedProfit =
      (calculateROI cid cname l cfg).estimatedRoyalties -
        (calculateROI cid cname l cfg).totalSpend := rfl

lemma calculateROI_profitMargin (cid cname : String) (l : List CampaignMetrics)
    (cfg : AnalysisConfig) :
    (calculateROI cid cname l cfg).profitMargin =
      (if (calculateROI cid cname l cfg).estimatedRoyalties > 0 then
        (calculateROI cid cname l cfg).estimatedProfit /
          (calculateROI cid cname l cfg).estimatedRoyalties * 100 else 0) := rfl

lemma calculateROI_breakEvenAcos (cid cname : String) (l : List CampaignMetrics)
    (cfg : AnalysisConfig) :
    (calculateROI cid cname l cfg).breakEvenAcos =
      (if (aggregateMetrics l).sales > 0 then
        (calculateROI cid cname l cfg).estimatedRoyalties /
          (aggregateMetrics l).sales * 100
      else if cfg.royaltyPerSale > 0 then 30 else 0) := rfl

lemma calculateROI_period (cid cname : String) (l : List CampaignMetrics)
    (cfg : AnalysisConfig) :
    (calculateROI cid cname l cfg).period =
      (match l.head?, l.getLast? with
       | some mFirst, some mLast => { startDate := mFirst.date, endDate := mLast.date }
       | _, _ => ({ startDate := "", endDate := "" } : DateRange)) := rfl

/-- Zero-guard translation: for a non-negative denominator, the source's
strict-positivity guard agrees with the spec's equality-with-zero
guard. -/
lemma guard_pos_eq_zero {u v : ℚ} (hu : 0 ≤ u) :
    (if u > 0 then v else 0) = (if u = 0 then 0 else v) := by
  rcases hu.eq_or_lt with h | h
  · simp [← h]
  · simp [h, h.ne']

lemma guard_breakeven {u w v : ℚ} (hu : 0 ≤ u) :
    (if u > 0 then v else if w > 0 then 30 else 0) =
      (if 0 < u then v else if u = 0 ∧ 0 < w then 30 else 0) := by
  rcases hu.eq_or_lt with h | h
  · simp [← h]
  · simp [h, h.ne']

/-! ### Pairwise-sorted lists: first and last elements are min and max -/

lemma head_date_min {l : List CampaignMetrics}
    (hp : l.Pairwise (fun a b => a.date ≤ b.date)) {mf : CampaignMetrics}
    (hh : l.head? = some mf) : ∀ m ∈ l, mf.date ≤ m.date := by
  cases l with
  | nil => cases hh
  | cons a t =>
    rw [List.head?_cons, Option.some.injEq] at hh
    subst hh
    intro m hm
    rcases List.mem_cons.mp hm with h | h
    · subst h; exact le_refl _
    · exact (List.pairwise_cons.mp hp).1 m h

lemma date_le_getLast {l : List CampaignMetrics}
    (hp : l.Pairwise (fun a b => a.date ≤ b.date)) {ml : CampaignMetrics}
    (hl : l.getLast? = some ml) : ∀ m ∈ l, m.date ≤ ml.date := by
  induction l with
  | nil => cases hl
  | cons a t ih =>
    cases t with
    | nil =>
      rw [show ([a] : List CampaignMetrics).getLast? = some a from rfl,
        Option.some.injEq] at hl
      subst hl
      intro m hm
      rcases List.mem_cons.mp hm with h | h
      · subst h; exact le_refl _
      · cases h
    | cons b u =>
      rw [List.getLast?_cons_cons] at hl
      obtain ⟨ha, hp'⟩ := List.pairwise_cons.mp hp
      have hml : ml ∈ b :: u := by
        have h1 := List.getLast?_eq_getLast (b :: u) (by simp)
        rw [h1, Option.some.injEq] at hl
        rw [← hl]
        exact List.getLast_mem _
      intro m hm
      rcases List.mem_cons.mp hm with h | h
      · subst h; exact ha ml hml
      · exact ih hp' hl m h

/-! ### Claim C4: the ROI ratio formulas and their zero guards -/

/-- C4: for every metrics list (with the data model's non-negative
fields) and every profitability configuration with a non-negative
royalty, the report produced by `calculateROI` satisfies exactly the
spec's formulas: ACOS = spend/sales·100 (0 when sales = 0),
ROAS = sales/spend (0 when spend = 0), CTR = clicks/impressions·100
(0 when impressions = 0), CPC = spend/clicks and conversion rate =
orders/clicks·100 (each 0 when clicks = 0), royalties = unitsSold ·
royaltyPerUnit + total page-read royalty, profit = royalties − spend,
profit margin = profit/royalties·100 (0 when royalties = 0), and
break-even ACOS = royalties/sales·100 when sales > 0, 30 when sales = 0
and royaltyPerUnit > 0, 0 otherwise.  In this exact-rational embedding
every division is guarded by a positivity test of its denominator, so no
NaN/Infinity value can arise. -/
theorem c4_roi_ratio_formulas (cid cname : String)
    (metrics : List CampaignMetrics) (config : AnalysisConfig)
    (hm : ∀ m ∈ metrics, 0 ≤ m.impressions ∧ 0 ≤ m.clicks ∧ 0 ≤ m.spend ∧
      0 ≤ m.sales ∧ 0 ≤ m.orders ∧ 0 ≤ m.unitsSold ∧ 0 ≤ m.kenpRoyalties.getD 0)
    (hconf : 0 ≤ config.royaltyPerSale) :
    let r := calculateROI cid cname metrics config
    (r.acos = if r.totalSales = 0 then 0 else r.totalSpend / r.totalSales * 100) ∧
    (r.roas = if r.totalSpend = 0 then 0 else r.totalSales / r.totalSpend) ∧
    (r.ctr = if r.totalImpressions = 0 then 0
      else r.totalClicks / r.totalImpressions * 100) ∧
    (r.cpc = if r.totalClicks = 0 then 0 else r.totalSpend / r.totalClicks) ∧
    (r.conversionRate = if r.totalClicks = 0 then 0
      else r.totalOrders / r.totalClicks * 100) ∧
    (r.estimatedRoyalties = r.totalUnitsSold * config.royaltyPerSale +
      (aggregateMetrics metrics).kenpRoyalties) ∧
    (r.estimatedProfit = r.estimatedRoyalties - r.totalSpend) ∧
    (r.profitMargin = if r.estimatedRoyalties = 0 then 0
      else r.estimatedProfit / r.estimatedRoyalties * 100) ∧
    (r.breakEvenAcos =
      if 0 < r.totalSales then r.estimatedRoyalties / r.totalSales * 100
      else if r.totalSales = 0 ∧ 0 < config.royaltyPerSale then 30 else 0) := by
  obtain ⟨hi, hcl, hsp, hsa, _, hus, hke⟩ := aggregateMetrics_nonneg hm
  have hroyal : 0 ≤ (aggregateMetrics metrics).unitsSold * config.royaltyPerSale +
      (aggregateMetrics metrics).kenpRoyalties :=
    add_nonneg (mul_nonneg hus hconf) hke
  refine ⟨guard_pos_eq_zero hsa, guard_pos_eq_zero hsp, guard_pos_eq_zero hi,
    guard_pos_eq_zero hcl, guard_pos_eq_zero hcl, rfl, rfl,
    guard_pos_eq_zero hroyal, guard_breakeven hsa⟩

/-- Witness for C4 at a concrete one-record input. -/
theorem c4_roi_ratio_formulas_witness :
    let r := calculateROI "c1" "Demo" [demoMetric] demoConfig
    (r.acos = if r.totalSales = 0 then 0 else r.totalSpend / r.totalSales * 100) ∧
    (r.roas = if r.totalSpend = 0 then 0 else r.totalSales / r.totalSpend) ∧
    (r.ctr = if r.totalImpressions = 0 then 0
      else r.totalClicks / r.totalImpressions * 100) ∧
    (r.cpc = if r.totalClicks = 0 then 0 else r.totalSpend / r.totalClicks) ∧
    (r.conversionRate = if r.totalClicks = 0 then 0
      else r.totalOrders / r.totalClicks * 100) ∧
    (r.estimatedRoyalties = r.totalUnitsSold * demoConfig.royaltyPerSale +
      (aggregateMetrics [demoMetric]).kenpRoyalties) ∧
    (r.estimatedProfit = r.estimatedRoyalties - r.totalSpend) ∧
    (r.profitMargin = if r.estimatedRoyalties = 0 then 0
      else r.estimatedProfit / r.estimatedRoyalties * 100) ∧
    (r.breakEvenAcos =
      if 0 < r.totalSales then r.estimatedRoyalties / r.totalSales * 100
      else if r.totalSales = 0 ∧ 0 < demoConfig.royaltyPerSale then 30 else 0) :=
  c4_roi_ratio_formulas "c1" "Demo" [demoMetric] demoConfig
    (by intro m hm; simp only [List.mem_singleton] at hm; subst hm; norm_num [demoMetric])
    (by norm_num [demoConfig])

/-! ### Claim C5: order-insensitivity and the report's period bounds -/

/-- C5 counterexample: the period of the report is taken from the first
and last input records, not from the minimum and maximum dates present —
permuting a two-record list whose later date comes first changes the
report's period, so the claim's permutation-invariance of the entire
report is false. -/
theorem c5_counterexample :
    [demoMetric, demoMetricEarlier].Perm [demoMetricEarlier, demoMetric] ∧
    (calculateROI "c1" "Demo" [demoMetric, demoMetricEarlier] demoConfig).period.startDate
      = "2025-12-10" ∧
    (calculateROI "c1" "Demo" [demoMetricEarlier, demoMetric] demoConfig).period.startDate
      = "2025-12-09" ∧
    calculateROI "c1" "Demo" [demoMetric, demoMetricEarlier] demoConfig ≠
      calculateROI "c1" "Demo" [demoMetricEarlier, demoMetric] demoConfig := by
  refine ⟨List.Perm.swap demoMetricEarlier demoMetric [], rfl, rfl, ?_⟩
  intro h
  have h2 : ("2025-12-10" : String) = "2025-12-09" :=
    congrArg (fun x : ROIMetrics => x.period.startDate) h
  exact absurd h2 (by decide)

/-- C5 (amended): the totals are the commutative, componentwise sums
over all records (absent page-read royalties counted as zero), so every
total and every derived ratio of the report is invariant under
permutation of the input; the report's period, however, is taken from
the first and last records of the list as given — for an input sorted
ascending by date these are exactly the minimum and maximum dates
present (never the query bounds), but for an unsorted input the period
is not permutation-invariant. -/
theorem c5_totals_commutative_period_first_last (cid cname : String)
    (metrics metrics' : List CampaignMetrics) (config : AnalysisConfig)
    (hperm : metrics.Perm metrics') :
    let r := calculateROI cid cname metrics config
    let r' := calculateROI cid cname metrics' config
    (aggregateMetrics metrics =
      { impressions := (metrics.map CampaignMetrics.impressions).sum
        clicks := (metrics.map CampaignMetrics.clicks).sum
        spend := (metrics.map CampaignMetrics.spend).sum
        sales := (metrics.map CampaignMetrics.sales).sum
        orders := (metrics.map CampaignMetrics.orders).sum
        unitsSold := (metrics.map CampaignMetrics.unitsSold).sum
        kenpRoyalties := (metrics.map (fun m => m.kenpRoyalties.getD 0)).sum }) ∧
    ({ r with period := r'.period } = r') ∧
    (∀ mf ml, metrics.head? = some mf → metrics.getLast? = some ml →
      r.period = { startDate := mf.date, endDate := ml.date }) ∧
    (metrics.Pairwise (fun a b => a.date ≤ b.date) → metrics ≠ [] →
      (∃ m ∈ metrics, r.period.startDate = m.date) ∧
      (∃ m ∈ metrics, r.period.endDate = m.date) ∧
      ∀ m ∈ metrics, r.period.startDate ≤ m.date ∧ m.date ≤ r.period.endDate) := by
  have hagg := aggregateMetrics_perm hperm
  have hper : ∀ mf ml, metrics.head? = some mf → metrics.getLast? = some ml →
      (calculateROI cid cname metrics config).period =
        { startDate := mf.date, endDate := ml.date } := by
    intro mf ml hh hl
    rw [calculateROI_period, hh, hl]
  refine ⟨aggregateMetrics_eq_sums metrics, ?_, hper, ?_⟩
  · simp only [calculateROI, hagg]
  · intro hpair hne
    have hh := List.head?_eq_head hne
    have hl := List.getLast?_eq_getLast metrics hne
    have hp := hper _ _ hh hl
    refine ⟨⟨metrics.head hne, List.head_mem hne, by rw [hp]⟩,
      ⟨metrics.getLast hne, List.getLast_mem hne, by rw [hp]⟩, ?_⟩
    intro m hm
    rw [hp]
    exact ⟨head_date_min hpair hh m hm, date_le_getLast hpair hl m hm⟩

/-- Witness for C5 (amended) at a concrete two-record permutation. -/
theorem c5_totals_commutative_witness :
    let r := calculateROI "c1" "Demo" [demoMetricEarlier, demoMetric] demoConfig
    let r' := calculateROI "c1" "Demo" [demoMetric, demoMetricEarlier] demoConfig
    (aggregateMetrics [demoMetricEarlier, demoMetric] =
      { impressions := ([demoMetricEarlier, demoMetric].map CampaignMetrics.impressions).sum
        clicks := ([demoMetricEarlier, demoMetric].map CampaignMetrics.clicks).sum
        spend := ([demoMetricEarlier, demoMetric].map CampaignMetrics.spend).sum
        sales := ([demoMetricEarlier, demoMetric].map CampaignMetrics.sales).sum
        orders := ([demoMetricEarlier, demoMetric].map CampaignMetrics.orders).sum
        unitsSold := ([demoMetricEarlier, demoMetric].map CampaignMetrics.unitsSold).sum
        kenpRoyalties :=
          ([demoMetricEarlier, demoMetric].map (fun m => m.kenpRoyalties.getD 0)).sum }) ∧
    ({ r with period := r'.period } = r') ∧
    (∀ mf ml, [demoMetricEarlier, demoMetric].head? = some mf →
      [demoMetricEarlier, demoMetric].getLast? = some ml →
      r.period = { startDate := mf.date, endDate := ml.date }) ∧
    ([demoMetricEarlier, demoMetric].Pairwise (fun a b => a.date ≤ b.date) →
      [demoMetricEarlier, demoMetric] ≠ ([] : List CampaignMetrics) →
      (∃ m ∈ [demoMetricEarlier, demoMetric], r.period.startDate = m.date) ∧
      (∃ m ∈ [demoMetricEarlier, demoMetric], r.period.endDate = m.date) ∧
      ∀ m ∈ [demoMetricEarlier, demoMetric],
        r.period.startDate ≤ m.date ∧ m.date ≤ r.period.endDate) :=
  c5_totals_commutative_period_first_last "c1" "Demo"
    [demoMetricEarlier, demoMetric] [demoMetric, demoMetricEarlier] demoConfig
    (List.Perm.swap demoMetric demoMetricEarlier [])

/-! ### Claim C6: period comparison -/

lemma percentageChange_self (x : ℚ) : percentageChange x x = 0 := by
  unfold percentageChange
  by_cases h : x = 0
  · simp [h]
  · simp [h]

/-- C6: each of the six change fields follows the spec's formula —
(current − previous)/previous·100 when the previous value is nonzero,
and for a zero previous value 100 if the current value is positive, else
0; the comparison embeds both input reports unchanged, and comparing a
report with itself yields all six changes 0. -/
theorem c6_percentage_change_convention (current previous : ROIMetrics) :
    let comp := comparePeriods current previous
    comp.currentPeriod = current ∧
    comp.previousPeriod = previous ∧
    (comp.changes.spendChange =
      if previous.totalSpend = 0 then (if 0 < current.totalSpend then 100 else 0)
      else (current.totalSpend - previous.totalSpend) / previous.totalSpend * 100) ∧
    (comp.changes.salesChange =
      if previous.totalSales = 0 then (if 0 < current.totalSales then 100 else 0)
      else (current.totalSales - previous.totalSales) / previous.totalSales * 100) ∧
    (comp.changes.acosChange =
      if previous.acos = 0 then (if 0 < current.acos then 100 else 0)
      else (current.acos - previous.acos) / previous.acos * 100) ∧
    (comp.changes.profitChange =
      if previous.estimatedProfit = 0 then (if 0 < current.estimatedProfit then 100 else 0)
      else (current.estimatedProfit - previous.estimatedProfit) /
        previous.estimatedProfit * 100) ∧
    (comp.changes.impressionsChange =
      if previous.totalImpressions = 0 then (if 0 < current.totalImpressions then 100 else 0)
      else (current.totalImpressions - previous.totalImpressions) /
        previous.totalImpressions * 100) ∧
    (comp.changes.clicksChange =
      if previous.totalClicks = 0 then (if 0 < current.totalClicks then 100 else 0)
      else (current.totalClicks - previous.totalClicks) / previous.totalClicks * 100) ∧
    (comparePeriods current current).changes =
      { spendChange := 0, salesChange := 0, acosChange := 0, profitChange := 0,
        impressionsChange := 0, clicksChange := 0 } := by
  refine ⟨rfl, rfl, rfl, rfl, rfl, rfl, rfl, rfl, ?_⟩
  simp [comparePeriods, percentageChange_self]

/-! ### Claim C10: the empty-input report -/

/-- C10 counterexample: for the empty metrics list the period is indeed
the pair of empty strings, but the break-even ACOS is the fallback 30
(not 0) whenever the configured royalty per unit is positive — so "all
derived ratios are 0" is false for the empty input. -/
theorem c10_counterexample :
    (calculateROI "c1" "Demo" [] demoConfig).period =
      { startDate := "", endDate := "" } ∧
    (calculateROI "c1" "Demo" [] demoConfig).breakEvenAcos = 30 ∧
    (calculateROI "c1" "Demo" [] demoConfig).breakEvenAcos ≠ 0 := by
  have h30 : (calculateROI "c1" "Demo" [] demoConfig).breakEvenAcos = 30 := by
    rw [calculateROI_breakEvenAcos]
    norm_num [demoConfig, aggregateMetrics]
  refine ⟨rfl, h30, ?_⟩
  rw [h30]
  norm_num

/-- C10 (amended): for the empty metrics list, the report's period is
the pair of empty strings, every total and every derived ratio is 0 —
except the break-even ACOS, which is the fixed fallback 30 whenever the
configured royalty per unit is positive, and 0 otherwise. -/
theorem c10_empty_input_report (cid cname : String) (config : AnalysisConfig) :
    let r := calculateROI cid cname [] config
    r.period.startDate = "" ∧ r.period.endDate = "" ∧
    r.totalSpend = 0 ∧ r.totalSales = 0 ∧ r.totalOrders = 0 ∧ r.totalUnitsSold = 0 ∧
    r.totalImpressions = 0 ∧ r.totalClicks = 0 ∧
    r.acos = 0 ∧ r.roas = 0 ∧ r.ctr = 0 ∧ r.cpc = 0 ∧ r.conversionRate = 0 ∧
    r.estimatedRoyalties = 0 ∧ r.estimatedProfit = 0 ∧ r.profitMargin = 0 ∧
    r.breakEvenAcos = if 0 < config.royaltyPerSale then 30 else 0 := by
  have h0 : aggregateMetrics [] =
      { impressions := 0, clicks := 0, spend := 0, sales := 0, orders := 0,
        unitsSold := 0, kenpRoyalties := 0 } := rfl
  refine ⟨rfl, rfl, rfl, rfl, rfl, rfl, rfl, rfl, ?_, ?_, ?_, ?_, ?_, ?_, ?_, ?_, ?_⟩ <;>
    simp [calculateROI_acos, calculateROI_roas, calculateROI_ctr, calculateROI_cpc,
      calculateROI_conversionRate, calculateROI_estimatedRoyalties,
      calculateROI_estimatedProfit, calculateROI_profitMargin,
      calculateROI_breakEvenAcos, calculateROI_totalSpend, h0]

/-! ### Helper lemmas: lookups against the proposal table -/

lemma find?_map_id_preserving (f : PendingChange → PendingChange)
    (hf : ∀ c, (f c).id = c.id) (l : List PendingChange) (i : Nat) :
    (l.map f).find? (fun c => c.id == i) = (l.find? (fun c => c.id == i)).map f := by
  rw [List.find?_map]
  have hp : ((fun c : PendingChange => c.id == i) ∘ f) =
      (fun c : PendingChange => c.id == i) := by
    funext c
    simp [Function.comp, hf c]
  rw [hp]

lemma lookup_some_id {db : DB} {i : Nat} {c : PendingChange}
    (h : getPendingChangeById db i = some c) : c.id = i := by
  have h2 := List.find?_some h
  simpa using h2

lemma lookup_update {db : DB} {id : Nat} {st : Status} {err : Option String}
    (i : Nat) :
    getPendingChangeById (updatePendingChangeStatus db id st err) i =
      (getPendingChangeById db i).map
        (fun c => if c.id == id then applyStatusUpdate db.now st err c else c) := by
  unfold getPendingChangeById updatePendingChangeStatus
  exact find?_map_id_preserving _
    (by
      intro c
      by_cases h : c.id == id <;> simp [h, applyStatusUpdate])
    _ _

lemma lookup_update_self {db : DB} {id : Nat} {c : PendingChange}
    (st : Status) (err : Option String)
    (h : getPendingChangeById db id = some c) :
    getPendingChangeById (updatePendingChangeStatus db id st err) id =
      some (applyStatusUpdate db.now st err c) := by
  rw [lookup_update, h]
  have hid : c.id = id := lookup_some_id h
  simp [hid]

lemma lookup_update_none {db : DB} {id : Nat} {st : Status} {err : Option String}
    {i : Nat} (h : getPendingChangeById db i = none) :
    getPendingChangeById (updatePendingChangeStatus db id st err) i = none := by
  rw [lookup_update, h]
  rfl

lemma lookup_create_of_some {db : DB} {ct : ChangeType} {tt : TargetType}
    {ti : String} {tn : Option String} {cv pv : ChangeValue} {rs : Option String}
    {i : Nat} {c : PendingChange} (h : getPendingChangeById db i = some c) :
    getPendingChangeById (createPendingChange db ct tt ti tn cv pv rs).1 i = some c := by
  unfold getPendingChangeById at h
  unfold getPendingChangeById createPendingChange
  rw [List.find?_append, h]
  rfl

lemma lookup_create_fresh (db : DB) (ct : ChangeType) (tt : TargetType)
    (ti : String) (tn : Option String) (cv pv : ChangeValue) (rs : Option String)
    (hfresh : ∀ c ∈ db.pendingChanges, c.id ≠ db.nextChangeId) :
    getPendingChangeById (createPendingChange db ct tt ti tn cv pv rs).1
        db.nextChangeId =
      some { id := db.nextChangeId, changeType := ct, targetType := tt, targetId := ti,
             targetName := tn, currentValue := cv, proposedValue := pv, reason := rs,
             status := Status.pending, createdAt := db.now, reviewedAt := none,
             executedAt := none, errorMessage := none } := by
  unfold getPendingChangeById createPendingChange
  rw [List.find?_append]
  have h1 : db.pendingChanges.find? (fun c => c.id == db.nextChangeId) = none :=
    List.find?_eq_none.mpr (by intro x hx; simpa using hfresh x hx)
  rw [h1, Option.none_or]
  simp [List.find?]

lemma lookup_create_new_status {db : DB} {ct : ChangeType} {tt : TargetType}
    {ti : String} {tn : Option String} {cv pv : ChangeValue} {rs : Option String}
    {i : Nat} {c : PendingChange} (hn : getPendingChangeById db i = none)
    (h : getPendingChangeById (createPendingChange db ct tt ti tn cv pv rs).1 i
      = some c) :
    c.status = Status.pending := by
  unfold getPendingChangeById at hn
  unfold getPendingChangeById createPendingChange at h
  rw [List.find?_append, hn, Option.none_or] at h
  have hm := List.mem_of_find?_eq_some h
  simp only [List.mem_singleton] at hm
  subst hm
  rfl

/-! ### Helper lemmas: the handlers branch by snapshot status -/

lemma approve_of_conflict {client : Option AdsClient} {db : DB} {id : Nat}
    {c : PendingChange} (hc : getPendingChangeById db id = some c)
    (hs : c.status ≠ Status.pending) :
    approve_change client db id = (db, ApproveOutcome.conflict c.status, []) := by
  unfold approve_change approveWithSnapshot
  rw [hc]
  simp [hs]

lemma reject_of_conflict {db : DB} {id : Nat} {c : PendingChange}
    (hc : getPendingChangeById db id = some c) (hs : c.status ≠ Status.pending) :
    reject_change db id = (db, RejectOutcome.conflict c.status) := by
  unfold reject_change
  rw [hc]
  simp [hs]

lemma approve_pending_none_backend {db : DB} {id : Nat} {c : PendingChange}
    (hc : getPendingChangeById db id = some c) (hs : c.status = Status.pending) :
    approve_change none db id =
      (updatePendingChangeStatus db id Status.approved none,
       ApproveOutcome.approvedNoBackend, []) := by
  unfold approve_change approveWithSnapshot
  rw [hc]
  simp [hs]

lemma approve_pending_backend_ok {db : DB} {id : Nat} {c : PendingChange}
    {client : AdsClient} (hc : getPendingChangeById db id = some c)
    (hs : c.status = Status.pending)
    (hx : (execChange client c).1 = ExecResult.ok) :
    approve_change (some client) db id =
      (recordChangeHistory (updatePendingChangeStatus db id Status.executed none)
        (some id) c.targetType c.targetId c.changeType (some c.currentValue)
        c.proposedValue true none,
       ApproveOutcome.executed, [(execChange client c).2]) := by
  unfold approve_change approveWithSnapshot
  rw [hc]
  simp [hs, hx]

lemma approve_pending_backend_err {db : DB} {id : Nat} {c : PendingChange}
    {client : AdsClient} {msg : String} (hc : getPendingChangeById db id = some c)
    (hs : c.status = Status.pending)
    (hx : (execChange client c).1 = ExecResult.err msg) :
    approve_change (some client) db id =
      (recordChangeHistory (updatePendingChangeStatus db id Status.failed (some msg))
        (some id) c.targetType c.targetId c.changeType (some c.currentValue)
        c.proposedValue false (some msg),
       ApproveOutcome.failedExec msg, [(execChange client c).2]) := by
  unfold approve_change approveWithSnapshot
  rw [hc]
  simp [hs, hx]

lemma reject_pending {db : DB} {id : Nat} {c : PendingChange}
    (hc : getPendingChangeById db id = some c) (hs : c.status = Status.pending) :
    reject_change db id =
      (updatePendingChangeStatus db id Status.rejected none,
       RejectOutcome.rejected) := by
  unfold reject_change
  rw [hc]
  simp [hs]

/-! ### Claim C1: approve/reject on a non-pending proposal -/

/-- C1: on a proposal whose status is not `pending`, both `approve_change`
and `reject_change` return the conflict outcome carrying the proposal's
current status, and return the database completely unchanged — status,
timestamps and both value payloads of every proposal included. -/
theorem c1_conflict_leaves_state_untouched (client : Option AdsClient) (db : DB)
    (id : Nat) (c : PendingChange) (hc : getPendingChangeById db id = some c)
    (hs : c.status ≠ Status.pending) :
    approve_change client db id = (db, ApproveOutcome.conflict c.status, []) ∧
    reject_change db id = (db, RejectOutcome.conflict c.status) :=
  ⟨approve_of_conflict hc hs, reject_of_conflict hc hs⟩

/-- Witness for C1 on a concrete already-approved proposal. -/
theorem c1_conflict_witness :
    approve_change none (demoDB Status.approved) 1 =
      (demoDB Status.approved, ApproveOutcome.conflict Status.approved, []) ∧
    reject_change (demoDB Status.approved) 1 =
      (demoDB Status.approved, RejectOutcome.conflict Status.approved) :=
  c1_conflict_leaves_state_untouched none (demoDB Status.approved) 1
    (demoChange Status.approved) rfl (by decide)

/-! ### Claim C7: approval without a configured backend -/

/-- C7: approving a pending proposal with no execution backend
configured records status `approved` (setting only the review
timestamp), performs no backend call, appends no history entry, mutates
no other table, and is reported as a non-error outcome; the proposal
does not move to `executed` or `failed` in that call. -/
theorem c7_record_only_approval (db : DB) (id : Nat) (c : PendingChange)
    (hc : getPendingChangeById db id = some c) (hs : c.status = Status.pending) :
    let R := approve_change none db id
    R.2.1 = ApproveOutcome.approvedNoBackend ∧
    approveIsError R.2.1 = false ∧
    R.2.2 = [] ∧
    getPendingChangeById R.1 id =
      some { c with status := Status.approved, reviewedAt := some db.now } ∧
    R.1.changeHistory = db.changeHistory ∧
    R.1.keywords = db.keywords ∧
    R.1.campaigns = db.campaigns := by
  have h1 := approve_pending_none_backend hc hs
  refine ⟨?_, ?_, ?_, ?_, ?_, ?_, ?_⟩ <;> rw [h1] <;> try rfl
  rw [lookup_update_self Status.approved none hc]
  simp [applyStatusUpdate]

/-- Witness for C7 on a concrete pending proposal. -/
theorem c7_record_only_approval_witness :
    let R := approve_change none (demoDB Status.pending) 1
    R.2.1 = ApproveOutcome.approvedNoBackend ∧
    approveIsError R.2.1 = false ∧
    R.2.2 = [] ∧
    getPendingChangeById R.1 1 =
      some { demoChange Status.pending with
             status := Status.approved,
             reviewedAt := some (demoDB Status.pending).now } ∧
    R.1.changeHistory = (demoDB Status.pending).changeHistory ∧
    R.1.keywords = (demoDB Status.pending).keywords ∧
    R.1.campaigns = (demoDB Status.pending).campaigns :=
  c7_record_only_approval (demoDB Status.pending) 1 (demoChange Status.pending) rfl rfl

/-! ### Claim C8: failed execution is recorded -/

/-- C8 counterexample: when the backend throws an `Error` whose message
is the empty string, the proposal moves to `failed` and one failed
history row is appended — but the error message is **not** stored on the
proposal (the source's `if (errorMessage)` treats the empty string as
falsy and skips the `error_message` column), so "the backend's error
message is stored verbatim in the proposal's error field" fails at this
input. -/
theorem c8_counterexample :
    let R := approve_change (some errEmptyClient) (demoDB Status.pending) 1
    R.2.1 = ApproveOutcome.failedExec "" ∧
    (getPendingChangeById R.1 1).map PendingChange.status = some Status.failed ∧
    (getPendingChangeById R.1 1).map PendingChange.errorMessage = some none ∧
    (getPendingChangeById R.1 1).map PendingChange.errorMessage ≠ some (some "") ∧
    R.1.changeHistory.map ChangeHistoryEntry.apiResponse = [some ""] := by
  refine ⟨rfl, rfl, rfl, ?_, rfl⟩
  intro h
  have h2 : (none : Option String) = some "" := Option.some.inj h
  cases h2

/-- C8 (amended): approving a pending proposal against a backend whose
mutation throws an `Error` with a non-empty message moves the proposal
to `failed`, stores that message verbatim in the proposal's error field,
sets the review and execution timestamps, appends exactly one failed
ChangeHistoryEntry carrying the `{ error: message }` payload, makes
exactly one backend call (no retry), and surfaces the outcome as a
recorded, non-fatal error.  (For an empty message the history entry
still carries the payload but the proposal's error field is left
unset.) -/
theorem c8_failed_execution_recorded (db : DB) (id : Nat) (c : PendingChange)
    (client : AdsClient) (msg : String)
    (hc : getPendingChangeById db id = some c) (hs : c.status = Status.pending)
    (hx : (execChange client c).1 = ExecResult.err msg) (hmsg : msg ≠ "") :
    let R := approve_change (some client) db id
    R.2.1 = ApproveOutcome.failedExec msg ∧
    approveIsError R.2.1 = true ∧
    R.2.2 = [(execChange client c).2] ∧
    getPendingChangeById R.1 id =
      some { c with
             status := Status.failed
             reviewedAt := some db.now
             executedAt := some db.now
             errorMessage := some msg } ∧
    R.1.changeHistory = db.changeHistory ++
      [{ pendingChangeId := some id, targetType := c.targetType,
         targetId := c.targetId, changeType := c.changeType,
         oldValue := some c.currentValue, newValue := c.proposedValue,
         executedAt := db.now, success := false, apiResponse := some msg }] ∧
    R.1.keywords = db.keywords := by
  have h1 := approve_pending_backend_err hc hs hx
  refine ⟨?_, ?_, ?_, ?_, ?_, ?_⟩ <;> rw [h1] <;> try rfl
  rw [show getPendingChangeById
      (recordChangeHistory (updatePendingChangeStatus db id Status.failed (some msg))
        (some id) c.targetType c.targetId c.changeType (some c.currentValue)
        c.proposedValue false (some msg)) id =
      getPendingChangeById (updatePendingChangeStatus db id Status.failed (some msg)) id
    from rfl]
  rw [lookup_update_self Status.failed (some msg) hc]
  simp [applyStatusUpdate, hmsg]

/-- Witness for C8 (amended): a backend failing with message "boom". -/
theorem c8_failed_execution_witness :
    let R := approve_change
      (some { updateKeywordBid := fun _ _ => ExecResult.err "boom"
              updateKeywordState := fun _ _ => ExecResult.err "boom"
              updateCampaignBudget := fun _ _ => ExecResult.err "boom"
              addNegativeKeyword := fun _ _ _ => ExecResult.err "boom" })
      (demoDB Status.pending) 1
    R.2.1 = ApproveOutcome.failedExec "boom" ∧
    approveIsError R.2.1 = true ∧
    R.2.2 = [(execChange
      { updateKeywordBid := fun _ _ => ExecResult.err "boom"
        updateKeywordState := fun _ _ => ExecResult.err "boom"
        updateCampaignBudget := fun _ _ => ExecResult.err "boom"
        addNegativeKeyword := fun _ _ _ => ExecResult.err "boom" }
      (demoChange Status.pending)).2] ∧
    getPendingChangeById R.1 1 =
      some { demoChange Status.pending with
             status := Status.failed,
             reviewedAt := some (demoDB Status.pending).now,
             executedAt := some (demoDB Status.pending).now,
             errorMessage := some "boom" } ∧
    R.1.changeHistory = (demoDB Status.pending).changeHistory ++
      [{ pendingChangeId := some 1,
         targetType := (demoChange Status.pending).targetType,
         targetId := (demoChange Status.pending).targetId,
         changeType := (demoChange Status.pending).changeType,
         oldValue := some (demoChange Status.pending).currentValue,
         newValue := (demoChange Status.pending).proposedValue,
         executedAt := (demoDB Status.pending).now, success := false,
         apiResponse := some "boom" }] ∧
    R.1.keywords = (demoDB Status.pending).keywords :=
  c8_failed_execution_recorded (demoDB Status.pending) 1 (demoChange Status.pending)
    { updateKeywordBid := fun _ _ => ExecResult.err "boom"
      updateKeywordState := fun _ _ => ExecResult.err "boom"
      updateCampaignBudget := fun _ _ => ExecResult.err "boom"
      addNegativeKeyword := fun _ _ _ => ExecResult.err "boom" }
    "boom" rfl rfl rfl (by decide)

/-! ### Claim C9: propose then reject leaves the target untouched -/

/-- C9: proposing a bid change for an existing keyword and then
rejecting that proposal leaves the keywords table (in particular the
keyword's stored bid), the campaigns table and the audit history
unchanged, and leaves the proposal in status `rejected` with its
current-value and proposed-value snapshots intact.  Neither handler
takes the execution backend as an input, so neither can invoke it. -/
theorem c9_propose_reject_frame (db : DB) (kwId : String) (newBid : ℚ)
    (reason : String) (kw : Keyword)
    (hk : getKeywordById db kwId = some kw)
    (hfresh : ∀ c ∈ db.pendingChanges, c.id ≠ db.nextChangeId) :
    let P := propose_bid_change db kwId newBid reason
    let R := reject_change P.1 db.nextChangeId
    P.2 = ProposeOutcome.created db.nextChangeId ∧
    P.1.keywords = db.keywords ∧
    R.2 = RejectOutcome.rejected ∧
    R.1.keywords = db.keywords ∧
    R.1.campaigns = db.campaigns ∧
    R.1.changeHistory = db.changeHistory ∧
    getKeywordById R.1 kwId = some kw ∧
    getPendingChangeById R.1 db.nextChangeId =
      some { id := db.nextChangeId
             changeType := ChangeType.bid_adjustment
             targetType := TargetType.keyword
             targetId := kwId
             targetName := some kw.keywordText
             currentValue := { bid := some kw.bid }
             proposedValue := { bid := some newBid }
             reason := some reason
             status := Status.rejected
             createdAt := db.now
             reviewedAt := some db.now
             executedAt := none
             errorMessage := none } := by
  have hP1 : (propose_bid_change db kwId newBid reason).1 =
      (createPendingChange db ChangeType.bid_adjustment TargetType.keyword kwId
        (some kw.keywordText) { bid := some kw.bid } { bid := some newBid }
        (some reason)).1 := by
    unfold propose_bid_change
    rw [hk]
  have hP2 : (propose_bid_change db kwId newBid reason).2 =
      ProposeOutcome.created db.nextChangeId := by
    unfold propose_bid_change
    rw [hk]
    rfl
  have hlookP := lookup_create_fresh db ChangeType.bid_adjustment
    TargetType.keyword kwId (some kw.keywordText) { bid := some kw.bid }
    { bid := some newBid } (some reason) hfresh
  have hR := reject_pending hlookP rfl
  refine ⟨hP2, ?_, ?_, ?_, ?_, ?_, ?_, ?_⟩
  · rw [hP1]
    rfl
  · rw [hP1, hR]
  · rw [hP1, hR]
    rfl
  · rw [hP1, hR]
    rfl
  · rw [hP1, hR]
    rfl
  · rw [hP1, hR]
    exact hk
  · rw [hP1, hR, lookup_update_self Status.rejected none hlookP]
    simp [applyStatusUpdate, createPendingChange]

/-- Witness for C9 on a concrete keyword and database. -/
theorem c9_propose_reject_witness :
    let P := propose_bid_change (demoDB Status.pending) "kw1" 2 "test"
    let R := reject_change P.1 (demoDB Status.pending).nextChangeId
    P.2 = ProposeOutcome.created (demoDB Status.pending).nextChangeId ∧
    P.1.keywords = (demoDB Status.pending).keywords ∧
    R.2 = RejectOutcome.rejected ∧
    R.1.keywords = (demoDB Status.pending).keywords ∧
    R.1.campaigns = (demoDB Status.pending).campaigns ∧
    R.1.changeHistory = (demoDB Status.pending).changeHistory ∧
    getKeywordById R.1 "kw1" = some demoKeyword ∧
    getPendingChangeById R.1 (demoDB Status.pending).nextChangeId =
      some { id := (demoDB Status.pending).nextChangeId
             changeType := ChangeType.bid_adjustment
             targetType := TargetType.keyword
             targetId := "kw1"
             targetName := some demoKeyword.keywordText
             currentValue := { bid := some demoKeyword.bid }
             proposedValue := { bid := some 2 }
             reason := some "test"
             status := Status.rejected
             createdAt := (demoDB Status.pending).now
             reviewedAt := some (demoDB Status.pending).now
             executedAt := none
             errorMessage := none } :=
  c9_propose_reject_frame (demoDB Status.pending) "kw1" 2 "test" demoKeyword rfl
    (by decide)

/-! ### Claim C3: the guard is a read followed by an unconditional write -/

/-- C3 counterexample: the status write of `updatePendingChangeStatus`
is keyed on the id alone (no expected-prior-status condition), so it
succeeds even when the stored status is already `rejected`; and in the
interleaving where two approvals of the same pending proposal both read
it before either commits, both pass the `pending` guard, both invoke the
backend (two execution attempts), and both report `executed` — the
second caller does not observe conflict. -/
theorem c3_counterexample :
    ((getPendingChangeById
        (updatePendingChangeStatus (demoDB Status.rejected) 1 Status.executed none) 1).map
      PendingChange.status = some Status.executed) ∧
    ((getPendingChangeById (demoDB Status.pending) 1).map PendingChange.status =
      some Status.pending) ∧
    (let S1 := approveWithSnapshot (some okClient) (demoDB Status.pending) 1
        (demoChange Status.pending)
     let S2 := approveWithSnapshot (some okClient) S1.1 1 (demoChange Status.pending)
     S1.2.1 = ApproveOutcome.executed ∧
     S2.2.1 = ApproveOutcome.executed ∧
     S1.2.2.length + S2.2.2.length = 2) :=
  ⟨rfl, rfl, rfl, rfl, rfl⟩

/-- C3 (amended): the handler checks the snapshot it read and then
writes unconditionally.  When the two approvals run sequentially (the
second reads after the first committed), the second observes conflict,
no second backend call is made, and the database is unchanged by the
second call — exactly one execution attempt in total.  The interleaved
schedule in the counterexample shows the same guard is not a single
indivisible check-and-set against the store. -/
theorem c3_sequential_second_approval_conflicts (client : AdsClient) (db : DB)
    (id : Nat) (c : PendingChange)
    (hc : getPendingChangeById db id = some c) (hs : c.status = Status.pending) :
    let R1 := approve_change (some client) db id
    let R2 := approve_change (some client) R1.1 id
    R1.2.2.length = 1 ∧
    R2.1 = R1.1 ∧
    R2.2.2 = [] ∧
    ((execChange client c).1 = ExecResult.ok →
      R1.2.1 = ApproveOutcome.executed ∧
      R2.2.1 = ApproveOutcome.conflict Status.executed) ∧
    (∀ msg, (execChange client c).1 = ExecResult.err msg →
      R1.2.1 = ApproveOutcome.failedExec msg ∧
      R2.2.1 = ApproveOutcome.conflict Status.failed) := by
  cases hres : (execChange client c).1 with
  | ok =>
    have h1 := approve_pending_backend_ok hc hs hres
    have hlook2 : getPendingChangeById (approve_change (some client) db id).1 id =
        some (applyStatusUpdate db.now Status.executed none c) := by
      rw [h1]
      exact lookup_update_self Status.executed none hc
    have hst : (applyStatusUpdate db.now Status.executed none c).status =
        Status.executed := rfl
    have h2 := @approve_of_conflict (some client) (approve_change (some client) db id).1
      id (applyStatusUpdate db.now Status.executed none c) hlook2
      (by simp [applyStatusUpdate])
    rw [hst] at h2
    refine ⟨?_, ?_, ?_, ?_, ?_⟩
    · simp [h1]
    · rw [h2]
    · rw [h2]
    · intro _
      exact ⟨by simp [h1], by simp [h2]⟩
    · intro msg hmsg
      simp at hmsg
  | err m =>
    have h1 := approve_pending_backend_err hc hs hres
    have hlook2 : getPendingChangeById (approve_change (some client) db id).1 id =
        some (applyStatusUpdate db.now Status.failed (some m) c) := by
      rw [h1]
      exact lookup_update_self Status.failed (some m) hc
    have hst : (applyStatusUpdate db.now Status.failed (some m) c).status =
        Status.failed := rfl
    have h2 := @approve_of_conflict (some client) (approve_change (some client) db id).1
      id (applyStatusUpdate db.now Status.failed (some m) c) hlook2
      (by simp [applyStatusUpdate])
    rw [hst] at h2
    refine ⟨?_, ?_, ?_, ?_, ?_⟩
    · simp [h1]
    · rw [h2]
    · rw [h2]
    · intro hok
      simp at hok
    · intro msg hmsg
      injection hmsg with hm
      subst hm
      exact ⟨by simp [h1], by simp [h2]⟩

/-- Witness for C3 (amended): a sequential double approval against an
always-succeeding backend. -/
theorem c3_sequential_witness :
    let R1 := approve_change (some okClient) (demoDB Status.pending) 1
    let R2 := approve_change (some okClient) R1.1 1
    R1.2.2.length = 1 ∧
    R2.1 = R1.1 ∧
    R2.2.2 = [] ∧
    ((execChange okClient (demoChange Status.pending)).1 = ExecResult.ok →
      R1.2.1 = ApproveOutcome.executed ∧
      R2.2.1 = ApproveOutcome.conflict Status.executed) ∧
    (∀ msg, (execChange okClient (demoChange Status.pending)).1 = ExecResult.err msg →
      R1.2.1 = ApproveOutcome.failedExec msg ∧
      R2.2.1 = ApproveOutcome.conflict Status.failed) :=
  c3_sequential_second_approval_conflicts okClient (demoDB Status.pending) 1
    (demoChange Status.pending) rfl rfl

/-! ### Claim C2: the status transition system -/

lemma legalStep_trans {a b c : Status} (h1 : legalStep a b) (h2 : legalStep b c) :
    legalStep a c := by
  rcases h1 with rfl | ⟨rfl, hb⟩
  · exact h2
  · rcases h2 with rfl | ⟨rfl, hc⟩
    · exact Or.inr ⟨rfl, hb⟩
    · exact absurd rfl hb

lemma lookup_update_dichotomy {db : DB} {i : Nat} {c : PendingChange}
    (id₀ : Nat) (st : Status) (err : Option String)
    (hc : getPendingChangeById db i = some c) :
    (i = id₀ ∧
      getPendingChangeById (updatePendingChangeStatus db id₀ st err) i =
        some (applyStatusUpdate db.now st err c)) ∨
    (getPendingChangeById (updatePendingChangeStatus db id₀ st err) i = some c) := by
  by_cases hci : c.id = id₀
  · left
    have hii : i = id₀ := by rw [← lookup_some_id hc]; exact hci
    refine ⟨hii, ?_⟩
    rw [lookup_update, hc]
    simp [hci]
  · right
    rw [lookup_update, hc]
    simp [hci]

/-- After any single workflow operation, a proposal visible before is
still visible, and it is either untouched or was pending and received
exactly one of the four status writes the handlers perform. -/
lemma runOp_lookup_characterization (client : Option AdsClient) (db : DB)
    (op : Op) (i : Nat) (c : PendingChange)
    (hc : getPendingChangeById db i = some c) :
    ∃ c', getPendingChangeById (runOp client db op) i = some c' ∧
      (c' = c ∨
       (c.status = Status.pending ∧
        ((client = none ∧ c' = applyStatusUpdate db.now Status.approved none c) ∨
         (∃ cl, client = some cl ∧ (execChange cl c).1 = ExecResult.ok ∧
            c' = applyStatusUpdate db.now Status.executed none c) ∨
         (∃ cl msg, client = some cl ∧ (execChange cl c).1 = ExecResult.err msg ∧
            c' = applyStatusUpdate db.now Status.failed (some msg) c) ∨
         c' = applyStatusUpdate db.now Status.rejected none c))) := by
  cases op with
  | proposeBid k b r =>
    refine ⟨c, ?_, Or.inl rfl⟩
    show getPendingChangeById (propose_bid_change db k b r).1 i = some c
    unfold propose_bid_change
    cases hk : getKeywordById db k with
    | none => exact hc
    | some kw => exact lookup_create_of_some hc
  | proposeKwState k st r =>
    refine ⟨c, ?_, Or.inl rfl⟩
    show getPendingChangeById (propose_keyword_state_change db k st r).1 i = some c
    unfold propose_keyword_state_change
    cases hk : getKeywordById db k with
    | none => exact hc
    | some kw => exact lookup_create_of_some hc
  | proposeBudget k b r =>
    refine ⟨c, ?_, Or.inl rfl⟩
    show getPendingChangeById (propose_budget_change db k b r).1 i = some c
    unfold propose_budget_change
    cases hk : getCampaignById db k with
    | none => exact hc
    | some cp => exact lookup_create_of_some hc
  | proposeNeg k t m r =>
    refine ⟨c, ?_, Or.inl rfl⟩
    show getPendingChangeById (propose_negative_keyword db k t m r).1 i = some c
    unfold propose_negative_keyword
    cases hk : getCampaignById db k with
    | none => exact hc
    | some cp => exact lookup_create_of_some hc
  | approve id₀ =>
    cases hl : getPendingChangeById db id₀ with
    | none =>
      have ha : approve_change client db id₀ = (db, ApproveOutcome.notFound, []) := by
        unfold approve_change
        rw [hl]
      refine ⟨c, ?_, Or.inl rfl⟩
      show getPendingChangeById (approve_change client db id₀).1 i = some c
      rw [ha]
      exact hc
    | some d =>
      by_cases hds : d.status = Status.pending
      · cases client with
        | none =>
          have ha := approve_pending_none_backend hl hds
          rcases lookup_update_dichotomy id₀ Status.approved none hc with
            ⟨hii, hlu⟩ | hlu
          · subst hii
            have hcd : c = d := Option.some.inj (hc.symm.trans hl)
            refine ⟨applyStatusUpdate db.now Status.approved none c, ?_,
              Or.inr ⟨by rw [hcd]; exact hds, Or.inl ⟨rfl, rfl⟩⟩⟩
            show getPendingChangeById (approve_change none db i).1 i = some _
            rw [ha]
            exact hlu
          · refine ⟨c, ?_, Or.inl rfl⟩
            show getPendingChangeById (approve_change none db id₀).1 i = some c
            rw [ha]
            exact hlu
        | some cl =>
          cases hres : (execChange cl d).1 with
          | ok =>
            have ha := approve_pending_backend_ok hl hds hres
            rcases lookup_update_dichotomy id₀ Status.executed none hc with
              ⟨hii, hlu⟩ | hlu
            · subst hii
              have hcd : c = d := Option.some.inj (hc.symm.trans hl)
              subst hcd
              refine ⟨applyStatusUpdate db.now Status.executed none c, ?_,
                Or.inr ⟨hds, Or.inr (Or.inl ⟨cl, rfl, hres, rfl⟩)⟩⟩
              show getPendingChangeById (approve_change (some cl) db i).1 i = some _
              rw [ha]
              exact hlu
            · refine ⟨c, ?_, Or.inl rfl⟩
              show getPendingChangeById (approve_change (some cl) db id₀).1 i = some c
              rw [ha]
              exact hlu
          | err msg =>
            have ha := approve_pending_backend_err hl hds hres
            rcases lookup_update_dichotomy id₀ Status.failed (some msg) hc with
              ⟨hii, hlu⟩ | hlu
            · subst hii
              have hcd : c = d := Option.some.inj (hc.symm.trans hl)
              subst hcd
              refine ⟨applyStatusUpdate db.now Status.failed (some msg) c, ?_,
                Or.inr ⟨hds, Or.inr (Or.inr (Or.inl ⟨cl, msg, rfl, hres, rfl⟩))⟩⟩
              show getPendingChangeById (approve_change (some cl) db i).1 i = some _
              rw [ha]
              exact hlu
            · refine ⟨c, ?_, Or.inl rfl⟩
              show getPendingChangeById (approve_change (some cl) db id₀).1 i = some c
              rw [ha]
              exact hlu
      · have ha := @approve_of_conflict client db id₀ d hl hds
        refine ⟨c, ?_, Or.inl rfl⟩
        show getPendingChangeById (approve_change client db id₀).1 i = some c
        rw [ha]
        exact hc
  | reject id₀ =>
    cases hl : getPendingChangeById db id₀ with
    | none =>
      have ha : reject_change db id₀ = (db, RejectOutcome.notFound) := by
        unfold reject_change
        rw [hl]
      refine ⟨c, ?_, Or.inl rfl⟩
      show getPendingChangeById (reject_change db id₀).1 i = some c
      rw [ha]
      exact hc
    | some d =>
      by_cases hds : d.status = Status.pending
      · have ha := reject_pending hl hds
        rcases lookup_update_dichotomy id₀ Status.rejected none hc with
          ⟨hii, hlu⟩ | hlu
        · subst hii
          have hcd : c = d := Option.some.inj (hc.symm.trans hl)
          refine ⟨applyStatusUpdate db.now Status.rejected none c, ?_,
            Or.inr ⟨by rw [hcd]; exact hds, Or.inr (Or.inr (Or.inr rfl))⟩⟩
          show getPendingChangeById (reject_change db i).1 i = some _
          rw [ha]
          exact hlu
        · refine ⟨c, ?_, Or.inl rfl⟩
          show getPendingChangeById (reject_change db id₀).1 i = some c
          rw [ha]
          exact hlu
      · have ha := reject_of_conflict hl hds
        refine ⟨c, ?_, Or.inl rfl⟩
        show getPendingChangeById (reject_change db id₀).1 i = some c
        rw [ha]
        exact hc

lemma runOp_legalStep (client : Option AdsClient) (db : DB) (op : Op) (i : Nat)
    (c c' : PendingChange) (hc : getPendingChangeById db i = some c)
    (hc' : getPendingChangeById (runOp client db op) i = some c') :
    legalStep c.status c'.status := by
  obtain ⟨c'', h1, h2⟩ := runOp_lookup_characterization client db op i c hc
  have hcc : c' = c'' := Option.some.inj (hc'.symm.trans h1)
  subst hcc
  rcases h2 with rfl | ⟨hp, hbr⟩
  · exact Or.inl rfl
  · refine Or.inr ⟨hp, ?_⟩
    rcases hbr with ⟨_, rfl⟩ | ⟨cl, _, _, rfl⟩ | ⟨cl, msg, _, _, rfl⟩ | rfl <;>
      simp [applyStatusUpdate]

lemma runOps_legalStep (ops : List Op) (client : Option AdsClient) (db : DB)
    (i : Nat) (c c' : PendingChange) (hc : getPendingChangeById db i = some c)
    (hc' : getPendingChangeById (runOps client db ops) i = some c') :
    legalStep c.status c'.status := by
  induction ops generalizing db c with
  | nil =>
    have : c = c' := Option.some.inj (hc.symm.trans hc')
    exact Or.inl (by rw [this])
  | cons op rest ih =>
    obtain ⟨c1, h1, _⟩ := runOp_lookup_characterization client db op i c hc
    have hstep := runOp_legalStep client db op i c c1 hc h1
    have hrest : getPendingChangeById (runOps client (runOp client db op) rest) i
        = some c' := by
      simpa [runOps, List.foldl_cons] using hc'
    exact legalStep_trans hstep (ih (runOp client db op) c1 h1 hrest)

lemma runOp_new_is_pending (client : Option AdsClient) (db : DB) (op : Op)
    (i : Nat) (c : PendingChange) (hn : getPendingChangeById db i = none)
    (hc : getPendingChangeById (runOp client db op) i = some c) :
    c.status = Status.pending := by
  cases op with
  | proposeBid k b r =>
    have hc2 : getPendingChangeById (propose_bid_change db k b r).1 i = some c := hc
    revert hc2
    unfold propose_bid_change
    cases hk : getKeywordById db k with
    | none =>
      intro hc2
      have hc3 : getPendingChangeById db i = some c := hc2
      rw [hn] at hc3
      exact Option.noConfusion hc3
    | some kw =>
      intro hc2
      exact lookup_create_new_status hn hc2
  | proposeKwState k st r =>
    have hc2 : getPendingChangeById (propose_keyword_state_change db k st r).1 i
        = some c := hc
    revert hc2
    unfold propose_keyword_state_change
    cases hk : getKeywordById db k with
    | none =>
      intro hc2
      have hc3 : getPendingChangeById db i = some c := hc2
      rw [hn] at hc3
      exact Option.noConfusion hc3
    | some kw =>
      intro hc2
      exact lookup_create_new_status hn hc2
  | proposeBudget k b r =>
    have hc2 : getPendingChangeById (propose_budget_change db k b r).1 i = some c := hc
    revert hc2
    unfold propose_budget_change
    cases hk : getCampaignById db k with
    | none =>
      intro hc2
      have hc3 : getPendingChangeById db i = some c := hc2
      rw [hn] at hc3
      exact Option.noConfusion hc3
    | some cp =>
      intro hc2
      exact lookup_create_new_status hn hc2
  | proposeNeg k t m r =>
    have hc2 : getPendingChangeById (propose_negative_keyword db k t m r).1 i
        = some c := hc
    revert hc2
    unfold propose_negative_keyword
    cases hk : getCampaignById db k with
    | none =>
      intro hc2
      have hc3 : getPendingChangeById db i = some c := hc2
      rw [hn] at hc3
      exact Option.noConfusion hc3
    | some cp =>
      intro hc2
      exact lookup_create_new_status hn hc2
  | approve id₀ =>
    cases hl : getPendingChangeById db id₀ with
    | none =>
      have ha : approve_change client db id₀ = (db, ApproveOutcome.notFound, []) := by
        unfold approve_change
        rw [hl]
      have hc2 : getPendingChangeById (approve_change client db id₀).1 i = some c := hc
      rw [ha] at hc2
      have hc3 : getPendingChangeById db i = some c := hc2
      rw [hn] at hc3
      exact Option.noConfusion hc3
    | some d =>
      by_cases hds : d.status = Status.pending
      · cases client with
        | none =>
          have ha := approve_pending_none_backend hl hds
          have hc2 : getPendingChangeById (approve_change none db id₀).1 i = some c := hc
          rw [ha] at hc2
          have hc3 : getPendingChangeById
              (updatePendingChangeStatus db id₀ Status.approved none) i = some c := hc2
          rw [lookup_update_none hn] at hc3
          exact Option.noConfusion hc3
        | some cl =>
          cases hres : (execChange cl d).1 with
          | ok =>
            have ha := approve_pending_backend_ok hl hds hres
            have hc2 : getPendingChangeById (approve_change (some cl) db id₀).1 i
                = some c := hc
            rw [ha] at hc2
            have hc3 : getPendingChangeById
                (updatePendingChangeStatus db id₀ Status.executed none) i = some c := hc2
            rw [lookup_update_none hn] at hc3
            exact Option.noConfusion hc3
          | err msg =>
            have ha := approve_pending_backend_err hl hds hres
            have hc2 : getPendingChangeById (approve_change (some cl) db id₀).1 i
                = some c := hc
            rw [ha] at hc2
            have hc3 : getPendingChangeById
                (updatePendingChangeStatus db id₀ Status.failed (some msg)) i
                = some c := hc2
            rw [lookup_update_none hn] at hc3
            exact Option.noConfusion hc3
      · have ha := @approve_of_conflict client db id₀ d hl hds
        have hc2 : getPendingChangeById (approve_change client db id₀).1 i = some c := hc
        rw [ha] at hc2
        have hc3 : getPendingChangeById db i = some c := hc2
        rw [hn] at hc3
        exact Option.noConfusion hc3
  | reject id₀ =>
    cases hl : getPendingChangeById db id₀ with
    | none =>
      have ha : reject_change db id₀ = (db, RejectOutcome.notFound) := by
        unfold reject_change
        rw [hl]
      have hc2 : getPendingChangeById (reject_change db id₀).1 i = some c := hc
      rw [ha] at hc2
      have hc3 : getPendingChangeById db i = some c := hc2
      rw [hn] at hc3
      exact Option.noConfusion hc3
    | some d =>
      by_cases hds : d.status = Status.pending
      · have ha := reject_pending hl hds
        have hc2 : getPendingChangeById (reject_change db id₀).1 i = some c := hc
        rw [ha] at hc2
        have hc3 : getPendingChangeById
            (updatePendingChangeStatus db id₀ Status.rejected none) i = some c := hc2
        rw [lookup_update_none hn] at hc3
        exact Option.noConfusion hc3
      · have ha := reject_of_conflict hl hds
        have hc2 : getPendingChangeById (reject_change db id₀).1 i = some c := hc
        rw [ha] at hc2
        have hc3 : getPendingChangeById db i = some c := hc2
        rw [hn] at hc3
        exact Option.noConfusion hc3

/-- C2 counterexample: approving a pending proposal with a configured,
succeeding backend moves the stored status directly from `pending` to
`executed` in a single write — a transition outside the claim's edge set
{pending→approved, pending→rejected, approved→executed,
approved→failed}; the stored status never passes through `approved` on
this path. -/
theorem c2_counterexample :
    ((getPendingChangeById (demoDB Status.pending) 1).map PendingChange.status =
      some Status.pending) ∧
    ((getPendingChangeById
        (runOp (some okClient) (demoDB Status.pending) (Op.approve 1)) 1).map
      PendingChange.status = some Status.executed) ∧
    ¬ specAllowedTransition Status.pending Status.executed :=
  ⟨rfl, rfl, by unfold specAllowedTransition; decide⟩

/-- C2 (amended): every proposal created by a propose operation starts
in `pending`; across any sequence of workflow operations a stored status
either stays unchanged or moves from `pending` to a non-`pending`
status in one step (so `approved`, `rejected`, `executed` and `failed`
are all terminal), the transitions being pending→approved (approval
without a backend), pending→rejected, pending→executed and
pending→failed (approval with a backend, which never stores an
intermediate `approved`); and a pending proposal reaches `executed`
or `failed` only as dictated by the backend's execution result — no
caller-supplied value chooses between them. -/
theorem c2_lifecycle (client : Option AdsClient) :
    (∀ db ops i c c',
       getPendingChangeById db i = some c →
       getPendingChangeById (runOps client db ops) i = some c' →
       legalStep c.status c'.status) ∧
    (∀ db op i c,
       getPendingChangeById db i = none →
       getPendingChangeById (runOp client db op) i = some c →
       c.status = Status.pending) ∧
    (∀ db op i c c',
       getPendingChangeById db i = some c →
       getPendingChangeById (runOp client db op) i = some c' →
       c.status = Status.pending →
       (c'.status = Status.executed →
          ∃ cl, client = some cl ∧ (execChange cl c).1 = ExecResult.ok) ∧
       (c'.status = Status.failed →
          ∃ cl msg, client = some cl ∧ (execChange cl c).1 = ExecResult.err msg)) := by
  refine ⟨?_, ?_, ?_⟩
  · intro db ops i c c' hc hc'
    exact runOps_legalStep ops client db i c c' hc hc'
  · intro db op i c hn hc
    exact runOp_new_is_pending client db op i c hn hc
  · intro db op i c c' hc hc' hp
    obtain ⟨c'', h1, h2⟩ := runOp_lookup_characterization client db op i c hc
    have hcc : c' = c'' := Option.some.inj (hc'.symm.trans h1)
    subst hcc
    rcases h2 with rfl | ⟨_, hbr⟩
    · rw [hp]
      exact ⟨fun h => Status.noConfusion h, fun h => Status.noConfusion h⟩
    · rcases hbr with ⟨hcl, rfl⟩ | ⟨cl, hcl, hok, rfl⟩ | ⟨cl, msg, hcl, herr, rfl⟩ | rfl
      · exact ⟨fun h => Status.noConfusion h, fun h => Status.noConfusion h⟩
      · exact ⟨fun _ => ⟨cl, hcl, hok⟩, fun h => Status.noConfusion h⟩
      · exact ⟨fun h => Status.noConfusion h, fun _ => ⟨cl, msg, hcl, herr⟩⟩
      · exact ⟨fun h => Status.noConfusion h, fun h => Status.noConfusion h⟩

/-- Witness for C2 instantiating the sequence conjunct on a concrete
one-operation run that drives a pending proposal to `executed`. -/
theorem c2_lifecycle_witness : legalStep Status.pending Status.executed :=
  (c2_lifecycle (some okClient)).1 (demoDB Status.pending) [Op.approve 1] 1
    (demoChange Status.pending)
    (applyStatusUpdate 7 Status.executed none (demoChange Status.pending)) rfl rfl

end KdpAds
